import Mathlib

/-!
Shallow embedding of the hubb-nest micro-app logic: the dashboard layout
component (Apps), the bucket-list and dating-ideas CRUD components, and the
events listing with its client-side filters. Each definition mirrors one
function or expression of the TypeScript source.
-/

/-- Widget size enum of the dashboard_layout rows: small | medium | large. -/
inductive WidgetSize
  | small
  | medium
  | large
deriving DecidableEq

/-- A row of the dashboard_layout table as held in the local layout state. -/
structure DashboardWidget where
  id : String
  widget_type : String
  position : Nat
  is_active : Bool
  size : WidgetSize
deriving DecidableEq

/-- The result argument of handleDragEnd: result.source.index and
result.destination.index; the destination is absent (none) when the widget
was dropped outside any valid target. -/
structure DragResult where
  source : Nat
  destination : Option Nat

/-- The two splice steps of handleDragEnd:
newLayout.splice(source.index, 1) removes the dragged item, then
newLayout.splice(destination.index, 0, reorderedItem) reinserts it. -/
def reorderList (l : List DashboardWidget) (i j : Nat) : List DashboardWidget :=
  match l[i]? with
  | some x => (l.eraseIdx i).insertIdx j x
  | none => l

/-- The position re-derivation of handleDragEnd:
newLayout.map((item, index) => ({...item, position: index})). -/
def assignPositions (l : List DashboardWidget) : List DashboardWidget :=
  l.mapIdx fun index item => { item with position := index }

/-- The optimistic local layout computed by handleDragEnd when a destination
is present: splice-remove, splice-insert, then reassign positions. -/
def reorderAndAssign (l : List DashboardWidget) (i j : Nat) : List DashboardWidget :=
  assignPositions (reorderList l i j)

/-- A widget with its position field dropped: all fields other than position. -/
def stripPos (w : DashboardWidget) : String × String × Bool × WidgetSize :=
  (w.id, w.widget_type, w.is_active, w.size)

/-- One remote update call of the persistence loop:
supabase.from('dashboard_layout').update({position}).eq('id', id) sets the
position column on every row whose id matches. -/
def storeUpdate (s : List (String × Nat)) (rowId : String) (p : Nat) :
    List (String × Nat) :=
  s.map fun row => if row.1 = rowId then (row.1, p) else row

/-- The outcome of one awaited update call: the promise resolves with a
response whose error field is null (ok) or set (errResponse, the database
rejected the update, which therefore does not commit), or the promise itself
rejects (throws, e.g. a network failure). -/
inductive CallOutcome
  | ok
  | errResponse
  | throws
deriving DecidableEq

/-- The commits a run of the persistence loop performs on the remote table
starting at call counter k: a call that resolves ok applies its update, any
other outcome leaves the table as is. -/
def applyOutcomes (s : List (String × Nat)) (updates : List (String × Nat))
    (outcome : Nat → CallOutcome) (k : Nat) : List (String × Nat) :=
  match updates with
  | [] => s
  | u :: rest =>
    match outcome k with
    | .ok => applyOutcomes (storeUpdate s u.1 u.2) rest outcome (k + 1)
    | .errResponse => applyOutcomes s rest outcome (k + 1)
    | .throws => applyOutcomes s rest outcome (k + 1)

/-- The sequential persistence loop of handleDragEnd inside its try/catch:
one awaited update call per row, in order, counted by k. The source never
destructures the resolved response, so its error field is never read: a call
that resolves with an error response is ignored and the loop continues; only
a call whose promise rejects aborts the loop and reaches the catch block,
which shows the generic toast. Returns the remote table, the calls actually
issued, and whether the toast was shown. -/
def persistLoop (updates : List (String × Nat)) (outcome : Nat → CallOutcome)
    (k : Nat) (s : List (String × Nat)) :
    List (String × Nat) × List (String × Nat) × Bool :=
  match updates with
  | [] => (s, [], false)
  | u :: rest =>
    match outcome k with
    | .throws => (s, [u], true)
    | .errResponse =>
      let r := persistLoop rest outcome (k + 1) s
      (r.1, u :: r.2.1, r.2.2)
    | .ok =>
      let r := persistLoop rest outcome (k + 1) (storeUpdate s u.1 u.2)
      (r.1, u :: r.2.1, r.2.2)

/-- The observable outcome of one handleDragEnd call: the local layout state,
the remote dashboard_layout table, the update calls issued, and whether the
failure toast was shown. -/
structure DragOutcome where
  layout : List DashboardWidget
  store : List (String × Nat)
  calls : List (String × Nat)
  toasted : Bool
deriving DecidableEq

/-- Full model of handleDragEnd: an absent destination returns immediately;
otherwise the local layout is set optimistically and the new positions are
persisted one row at a time. -/
def handleDragEnd (layout : List DashboardWidget) (result : DragResult)
    (outcome : Nat → CallOutcome) (store : List (String × Nat)) : DragOutcome :=
  match result.destination with
  | none => ⟨layout, store, [], false⟩
  | some j =>
    let updated := reorderAndAssign layout result.source j
    let r := persistLoop (updated.map fun w => (w.id, w.position)) outcome 0 store
    ⟨updated, r.1, r.2.1, r.2.2⟩

/-- One catalog entry of the fixed AVAILABLE_WIDGETS array (the icon is
recorded by its component name). -/
structure AvailableWidget where
  id : String
  title : String
  description : String
  icon : String
  color : String
deriving DecidableEq

/-- The fixed catalog of known widget types. -/
def AVAILABLE_WIDGETS : List AvailableWidget :=
  [⟨"bucket-list", "Meine Bucket List", "Verwalte deine Lebensziele und Träume",
    "Grid3X3", "bg-gradient-to-br from-purple-500 to-pink-500"⟩,
   ⟨"dating-journal", "Dating Journal", "Dokumentiere deine Dating-Erfahrungen",
    "Heart", "bg-gradient-to-br from-pink-500 to-red-500"⟩,
   ⟨"dating-ideas", "Dating Ideen", "Sammle kreative Date-Vorschläge",
    "Lightbulb", "bg-gradient-to-br from-yellow-500 to-orange-500"⟩,
   ⟨"dating-app", "Dating App", "Finde interessante Personen",
    "Users", "bg-gradient-to-br from-blue-500 to-purple-500"⟩]

/-- A dashboard_layout row as inserted by createDefaultLayout, before the
server assigns an id. -/
structure NewDashboardWidget where
  widget_type : String
  position : Nat
  is_active : Bool
  size : WidgetSize
  user_id : String
deriving DecidableEq

/-- The defaultWidgets array built by createDefaultLayout:
AVAILABLE_WIDGETS.map((widget, index) => ({widget_type: widget.id,
position: index, is_active: true, size: 'medium', user_id: user?.id})). -/
def createDefaultWidgets (uid : String) : List NewDashboardWidget :=
  AVAILABLE_WIDGETS.mapIdx fun index widget =>
    ⟨widget.id, index, true, WidgetSize.medium, uid⟩

/-- Adopting the rows returned by the insert: the server assigns each row an
id (modelled by the assignment ids), the other columns are stored as sent. -/
def adoptInserted (ids : Nat → String) (ws : List NewDashboardWidget) :
    List DashboardWidget :=
  ws.mapIdx fun k w => ⟨ids k, w.widget_type, w.position, w.is_active, w.size⟩

/-- Response of one remote list fetch: ok carries the data field (which the
client may return as null), err covers both an error response and a thrown
exception. -/
inductive FetchResult (α : Type)
  | ok (data : Option α)
  | err (message : String)

/-- The list-state transition of the CRUD fetchers (fetchItems, fetchIdeas,
fetchEvents): on an error response the handler toasts and returns, leaving
the current state; on success it stores data || []. -/
def fetchListNext {α : Type} (current : List α) (resp : FetchResult (List α)) :
    List α :=
  match resp with
  | .err _ => current
  | .ok none => []
  | .ok (some data) => data

/-- What fetchDashboardLayout decides to do with the response. -/
inductive LayoutAction
  | adopt (rows : List DashboardWidget)
  | createDefault
deriving DecidableEq

/-- The branch structure of fetchDashboardLayout: an error response or a
thrown exception runs createDefaultLayout, as does an empty or null data
list; otherwise the fetched rows become the local layout. -/
def fetchDashboardNext (resp : FetchResult (List DashboardWidget)) :
    LayoutAction :=
  match resp with
  | .err _ => .createDefault
  | .ok none => .createDefault
  | .ok (some rows) => if 0 < rows.length then .adopt rows else .createDefault

/-- A JSON-like field value of a write payload. -/
inductive JsValue
  | str (s : String)
  | bool (b : Bool)
  | null
deriving DecidableEq

/-- A write payload: the field/value pairs of the object literal passed to
insert or update. -/
abbrev Payload := List (String × JsValue)

/-- A mutation issued through the supabase client: an insert into a table, or
an update of the rows of a table matching an id. -/
inductive DbOp
  | insert (table : String) (payload : Payload)
  | update (table : String) (payload : Payload) (rowId : String)
deriving DecidableEq

/-- The payload of a mutation. -/
def DbOp.payload : DbOp → Payload
  | .insert _ p => p
  | .update _ p _ => p

/-- The field names of a payload. -/
def payloadKeys (p : Payload) : List String := p.map Prod.fst

/-- The formData state of BucketListApp. -/
structure BucketFormData where
  title : String
  description : String
  category : String
  target_date : String

/-- A row of the bucket_list_items table. -/
structure BucketListItem where
  id : String
  title : String
  description : String
  category : String
  is_completed : Bool
  target_date : Option String
  created_at : String
deriving DecidableEq

/-- itemData of BucketListApp.handleSubmit: {...formData, user_id: user?.id,
target_date: formData.target_date || null}. -/
def bucketItemData (fd : BucketFormData) (uid : String) : Payload :=
  [("title", .str fd.title), ("description", .str fd.description),
   ("category", .str fd.category),
   ("target_date", if fd.target_date = "" then JsValue.null else .str fd.target_date),
   ("user_id", .str uid)]

/-- BucketListApp.handleSubmit: update the edited row by id, or insert. -/
def bucketHandleSubmit (fd : BucketFormData) (uid : String)
    (editingItem : Option BucketListItem) : DbOp :=
  match editingItem with
  | some item => .update "bucket_list_items" (bucketItemData fd uid) item.id
  | none => .insert "bucket_list_items" (bucketItemData fd uid)

/-- BucketListApp.toggleComplete: update({is_completed: !item.is_completed})
on the row matching item.id. -/
def toggleComplete (item : BucketListItem) : DbOp :=
  .update "bucket_list_items" [("is_completed", .bool (!item.is_completed))] item.id

/-- The formData state of DatingIdeasApp. -/
structure IdeaFormData where
  title : String
  description : String
  category : String
  estimated_cost : String
  estimated_duration : String
  location_type : String

/-- A row of the dating_ideas table. -/
structure DatingIdea where
  id : String
  title : String
  description : String
  category : String
  estimated_cost : String
  estimated_duration : String
  location_type : String
  is_favorite : Bool
  created_at : String
deriving DecidableEq

/-- ideaData of DatingIdeasApp.handleSubmit: {...formData, user_id: user?.id}. -/
def ideaData (fd : IdeaFormData) (uid : String) : Payload :=
  [("title", .str fd.title), ("description", .str fd.description),
   ("category", .str fd.category), ("estimated_cost", .str fd.estimated_cost),
   ("estimated_duration", .str fd.estimated_duration),
   ("location_type", .str fd.location_type), ("user_id", .str uid)]

/-- DatingIdeasApp.handleSubmit: update the edited row by id, or insert. -/
def ideasHandleSubmit (fd : IdeaFormData) (uid : String)
    (editingIdea : Option DatingIdea) : DbOp :=
  match editingIdea with
  | some idea => .update "dating_ideas" (ideaData fd uid) idea.id
  | none => .insert "dating_ideas" (ideaData fd uid)

/-- DatingIdeasApp.toggleFavorite: update({is_favorite: !idea.is_favorite})
on the row matching idea.id. -/
def toggleFavorite (idea : DatingIdea) : DbOp :=
  .update "dating_ideas" [("is_favorite", .bool (!idea.is_favorite))] idea.id

/-- The filteredIdeas expression shared by DatingIdeasApp.getRandomIdea and
the render path: categoryFilter === 'all' ? ideas :
ideas.filter(idea => idea.category === categoryFilter). -/
def filteredIdeasFor (ideas : List DatingIdea) (categoryFilter : String) :
    List DatingIdea :=
  if categoryFilter = "all" then ideas
  else ideas.filter fun idea => idea.category == categoryFilter

/-- What DatingIdeasApp.getRandomIdea does after the emptiness check: either
the early return with the "Keine Ideen gefunden" toast, or the selection
toast showing the indexed element (none would model an out-of-bounds index,
i.e. undefined). -/
inductive RandomIdeaOutcome
  | noIdeas
  | selected (idea : Option DatingIdea)
deriving DecidableEq

/-- DatingIdeasApp.getRandomIdea: Math.random() is modelled by its contract,
a rational r with 0 ≤ r < 1; the selected index is
Math.floor(r * filteredIdeas.length). -/
def getRandomIdea (ideas : List DatingIdea) (categoryFilter : String) (r : ℚ) :
    RandomIdeaOutcome :=
  let filteredIdeas := filteredIdeasFor ideas categoryFilter
  if filteredIdeas.length = 0 then .noIdeas
  else .selected filteredIdeas[(Int.floor (r * (filteredIdeas.length : ℚ))).toNat]?

/-- A row of the events table. -/
structure Event where
  id : String
  title : String
  description : String
  location : String
  event_date : String
  category : String
  distance_km : Option Int
  is_public : Bool
deriving DecidableEq

/-- JavaScript String.prototype.includes on the character sequences. -/
def jsIncludes (s sub : String) : Bool := decide (sub.data <:+: s.data)

/-- JavaScript String.prototype.toLowerCase, character by character. -/
def jsToLower (s : String) : String := ⟨s.data.map Char.toLower⟩

/-- matchesSearch of Events.filteredEvents: the search term is looked for,
lower-cased, in title, description and location. -/
def matchesSearch (e : Event) (searchTerm : String) : Bool :=
  jsIncludes (jsToLower e.title) (jsToLower searchTerm) ||
  jsIncludes (jsToLower e.description) (jsToLower searchTerm) ||
  jsIncludes (jsToLower e.location) (jsToLower searchTerm)

/-- matchesCategory of Events.filteredEvents. -/
def matchesCategory (e : Event) (categoryFilter : String) : Bool :=
  categoryFilter == "all" || e.category == categoryFilter

/-- JavaScript truthiness of event.distance_km: null and 0 are falsy. -/
def distTruthy : Option Int → Bool
  | none => false
  | some d => d != 0

/-- The numeric value event.distance_km compares with once truthy. -/
def distValue : Option Int → Int
  | none => 0
  | some d => d

/-- matchesDistance of Events.filteredEvents: each bucket first tests the
truthiness of event.distance_km and then the bound. -/
def matchesDistance (e : Event) (distanceFilter : String) : Bool :=
  distanceFilter == "all" ||
  (distanceFilter == "under5" && distTruthy e.distance_km &&
    decide (distValue e.distance_km ≤ 5)) ||
  (distanceFilter == "under20" && distTruthy e.distance_km &&
    decide (distValue e.distance_km ≤ 20)) ||
  (distanceFilter == "over20" && distTruthy e.distance_km &&
    decide (distValue e.distance_km > 20))

/-- Events.filteredEvents: the conjunction of the three predicates over the
fetched list. -/
def filteredEvents (events : List Event)
    (searchTerm categoryFilter distanceFilter : String) : List Event :=
  events.filter fun e =>
    matchesSearch e searchTerm && matchesCategory e categoryFilter &&
      matchesDistance e distanceFilter

/-- The claim reads the under5 bucket as selecting exactly the events whose
distance_km is at most 5; this predicate follows that wording. -/
def specDistanceAtMost5 (e : Event) : Bool :=
  match e.distance_km with
  | some d => decide (d ≤ 5)
  | none => false

/-- A three-widget layout in display order: bucket-list, dating-journal,
dating-ideas. -/
def exLayout : List DashboardWidget :=
  [⟨"w1", "bucket-list", 0, true, WidgetSize.medium⟩,
   ⟨"w2", "dating-journal", 1, true, WidgetSize.medium⟩,
   ⟨"w3", "dating-ideas", 2, true, WidgetSize.medium⟩]

theorem assignPositions_map_position (m : List DashboardWidget) :
    (assignPositions m).map (fun w => w.position) = List.range m.length := by
  apply List.ext_getElem
  · simp [assignPositions]
  · intro k h1 h2
    simp [assignPositions, List.getElem_mapIdx]

theorem assignPositions_map_stripPos (m : List DashboardWidget) :
    (assignPositions m).map stripPos = m.map stripPos := by
  apply List.ext_getElem
  · simp [assignPositions]
  · intro k h1 h2
    simp [assignPositions, List.getElem_mapIdx, stripPos]

theorem reorderList_length (l : List DashboardWidget) (i j : Nat)
    (hi : i < l.length) (hj : j < l.length) :
    (reorderList l i j).length = l.length := by
  unfold reorderList
  rw [List.getElem?_eq_getElem hi]
  have h1 : (l.eraseIdx i).length = l.length - 1 := by
    rw [List.length_eraseIdx]
    simp [hi]
  rw [List.length_insertIdx _ _ (by omega)]
  omega

theorem reorderList_perm (l : List DashboardWidget) (i j : Nat)
    (hi : i < l.length) (hj : j < l.length) :
    (reorderList l i j).Perm l := by
  unfold reorderList
  rw [List.getElem?_eq_getElem hi]
  have hle : j ≤ (l.eraseIdx i).length := by
    rw [List.length_eraseIdx]
    simp [hi]
    omega
  refine (List.perm_insertIdx _ _ hle).trans ?_
  rw [List.eraseIdx_eq_take_drop_succ]
  have hsplit : l.take i ++ l[i] :: l.drop (i + 1) = l := by
    rw [← List.drop_eq_getElem_cons hi, List.take_append_drop]
  exact List.perm_middle.symm.trans (List.Perm.of_eq hsplit)

/-- C1: for every layout and every valid source index i and destination
index j, handleDragEnd removes the widget at index i, reinserts it at index
j, and assigns each widget a position equal to its new index, so the
resulting positions are the dense sequence 0..N-1 matching the new visual
order. -/
theorem dragEnd_positions_dense (l : List DashboardWidget) (i j : Nat)
    (hi : i < l.length) (hj : j < l.length) :
    (reorderAndAssign l i j).map (fun w => w.position) = List.range l.length ∧
    (reorderAndAssign l i j).map stripPos = (reorderList l i j).map stripPos := by
  constructor
  · rw [reorderAndAssign, assignPositions_map_position, reorderList_length l i j hi hj]
  · exact assignPositions_map_stripPos _

theorem dragEnd_positions_dense_witness :
    2 < exLayout.length ∧ 0 < exLayout.length ∧
      ((reorderAndAssign exLayout 2 0).map (fun w => w.position) =
          List.range exLayout.length ∧
        (reorderAndAssign exLayout 2 0).map stripPos =
          (reorderList exLayout 2 0).map stripPos) :=
  ⟨by decide, by decide, dragEnd_positions_dense exLayout 2 0 (by decide) (by decide)⟩

/-- C6: on the layout [0: bucket-list, 1: dating-journal, 2: dating-ideas],
dragging index 2 to index 0 yields [dating-ideas at 0, bucket-list at 1,
dating-journal at 2]. -/
theorem drag_idx2_to_idx0 :
    (reorderAndAssign exLayout 2 0).map (fun w => (w.widget_type, w.position)) =
      [("dating-ideas", 0), ("bucket-list", 1), ("dating-journal", 2)] := by
  decide

/-- C7: a drag-end event whose destination is absent is a no-op: the local
layout is unchanged, the remote table is untouched, no update call is issued
and no toast is shown. -/
theorem dragEnd_no_destination (layout : List DashboardWidget) (src : Nat)
    (outcome : Nat → CallOutcome) (store : List (String × Nat)) :
    handleDragEnd layout ⟨src, none⟩ outcome store = ⟨layout, store, [], false⟩ :=
  rfl

/-- C9: for every layout and valid indices, the reorder preserves the
multiset of widgets (all fields other than position): nothing is lost or
duplicated by the splice-remove and splice-insert steps. -/
theorem dragEnd_preserves_widgets (l : List DashboardWidget) (i j : Nat)
    (hi : i < l.length) (hj : j < l.length) :
    ((reorderAndAssign l i j).map stripPos).Perm (l.map stripPos) := by
  rw [reorderAndAssign, assignPositions_map_stripPos]
  exact (reorderList_perm l i j hi hj).map stripPos

theorem persistLoop_no_throw (updates : List (String × Nat))
    (outcome : Nat → CallOutcome) (base : Nat) (s : List (String × Nat))
    (hok : ∀ m, m < updates.length → outcome (base + m) ≠ CallOutcome.throws) :
    persistLoop updates outcome base s =
      (applyOutcomes s updates outcome base, updates, false) := by
  induction updates generalizing base s with
  | nil => simp [persistLoop, applyOutcomes]
  | cons u rest ih =>
    have h0 : outcome base ≠ CallOutcome.throws := by
      simpa using hok 0 (by simp)
    have hok' : ∀ m, m < rest.length → outcome (base + 1 + m) ≠ CallOutcome.throws := by
      intro m hm
      have := hok (m + 1) (by simpa using Nat.succ_lt_succ hm)
      rwa [show base + (m + 1) = base + 1 + m by omega] at this
    cases hcall : outcome base with
    | throws => exact absurd hcall h0
    | errResponse =>
      simp only [persistLoop, applyOutcomes, hcall, ih (base + 1) s hok']
    | ok =>
      simp only [persistLoop, applyOutcomes, hcall,
        ih (base + 1) (storeUpdate s u.1 u.2) hok']

theorem persistLoop_first_throw (updates : List (String × Nat))
    (outcome : Nat → CallOutcome) (base n : Nat) (s : List (String × Nat))
    (hok : ∀ m, m < n → outcome (base + m) ≠ CallOutcome.throws)
    (hthrow : outcome (base + n) = CallOutcome.throws)
    (hn : n < updates.length) :
    persistLoop updates outcome base s =
      (applyOutcomes s (updates.take n) outcome base, updates.take (n + 1), true) := by
  induction updates generalizing base n s with
  | nil => simp at hn
  | cons u rest ih =>
    cases n with
    | zero =>
      have h0 : outcome base = CallOutcome.throws := by simpa using hthrow
      simp [persistLoop, h0, applyOutcomes]
    | succ n' =>
      have h0 : outcome base ≠ CallOutcome.throws := by
        simpa using hok 0 (Nat.succ_pos n')
      have hok' : ∀ m, m < n' → outcome (base + 1 + m) ≠ CallOutcome.throws := by
        intro m hm
        have := hok (m + 1) (by omega)
        rwa [show base + (m + 1) = base + 1 + m by omega] at this
      have hthrow' : outcome (base + 1 + n') = CallOutcome.throws := by
        rwa [show base + (n' + 1) = base + 1 + n' by omega] at hthrow
      have hn' : n' < rest.length := by simpa using hn
      cases hcall : outcome base with
      | throws => exact absurd hcall h0
      | errResponse =>
        simp only [persistLoop, hcall, ih (base + 1) n' s hok' hthrow' hn',
          List.take_succ_cons, applyOutcomes]
      | ok =>
        simp only [persistLoop, hcall,
          ih (base + 1) n' (storeUpdate s u.1 u.2) hok' hthrow' hn',
          List.take_succ_cons, applyOutcomes]

theorem dragEnd_preserves_widgets_witness :
    2 < exLayout.length ∧ 0 < exLayout.length ∧
      ((reorderAndAssign exLayout 2 0).map stripPos).Perm (exLayout.map stripPos) :=
  ⟨by decide, by decide, dragEnd_preserves_widgets exLayout 2 0 (by decide) (by decide)⟩

def exLayout2 : List DashboardWidget :=
  [⟨"a", "bucket-list", 0, true, WidgetSize.medium⟩,
   ⟨"b", "dating-journal", 1, true, WidgetSize.medium⟩]

def exStore : List (String × Nat) := [("a", 0), ("b", 1)]

/-- First update call resolves with a database error response; the rest
resolve ok. -/
def exOutcomeN : Nat → CallOutcome :=
  fun k => if k = 0 then CallOutcome.errResponse else CallOutcome.ok

/-- First update call resolves with a database error response; the second
call's promise rejects. -/
def exOutcomeW : Nat → CallOutcome :=
  fun k => if k = 0 then CallOutcome.errResponse else CallOutcome.throws

/-- C4 as stated is false: here the first position update fails with a
database error response, yet no notification is shown — the loop never
destructures the resolved response, so its error field goes unread, the loop
continues through the remaining row (both calls are issued and the second
commits), and the catch block is never reached. -/
theorem dragEnd_error_response_unreported :
    exOutcomeN 0 = CallOutcome.errResponse ∧
    (handleDragEnd exLayout2 ⟨0, some 1⟩ exOutcomeN exStore).toasted = false ∧
    (handleDragEnd exLayout2 ⟨0, some 1⟩ exOutcomeN exStore).calls =
      [("b", 0), ("a", 1)] ∧
    (handleDragEnd exLayout2 ⟨0, some 1⟩ exOutcomeN exStore).store =
      [("a", 1), ("b", 1)] := by
  decide

/-- C4 amended: position updates are issued one per row sequentially with no
transaction, the local layout always keeps the optimistically reordered
state, and updates that committed stay committed. An update that resolves
with a database error response is silently skipped — the loop continues and
no toast is shown when no call rejects. Only a call whose promise rejects
aborts the loop, leaving the remaining updates unissued, and is reported via
the generic toast. -/
theorem dragEnd_partial_failure_amended (layout : List DashboardWidget) (i j : Nat)
    (outcome : Nat → CallOutcome) (store : List (String × Nat)) :
    (handleDragEnd layout ⟨i, some j⟩ outcome store).layout =
        reorderAndAssign layout i j ∧
    ((∀ m, m < ((reorderAndAssign layout i j).map fun w => (w.id, w.position)).length →
        outcome m ≠ CallOutcome.throws) →
      handleDragEnd layout ⟨i, some j⟩ outcome store =
        ⟨reorderAndAssign layout i j,
         applyOutcomes store
           ((reorderAndAssign layout i j).map fun w => (w.id, w.position)) outcome 0,
         (reorderAndAssign layout i j).map fun w => (w.id, w.position),
         false⟩) ∧
    (∀ n, (∀ m, m < n → outcome m ≠ CallOutcome.throws) →
      outcome n = CallOutcome.throws →
      n < ((reorderAndAssign layout i j).map fun w => (w.id, w.position)).length →
      handleDragEnd layout ⟨i, some j⟩ outcome store =
        ⟨reorderAndAssign layout i j,
         applyOutcomes store
           (((reorderAndAssign layout i j).map fun w => (w.id, w.position)).take n)
           outcome 0,
         ((reorderAndAssign layout i j).map fun w => (w.id, w.position)).take (n + 1),
         true⟩) := by
  refine ⟨rfl, ?_, ?_⟩
  · intro hok
    have hunfold :
        persistLoop ((reorderAndAssign layout i j).map fun w => (w.id, w.position))
            outcome 0 store =
          (applyOutcomes store
            ((reorderAndAssign layout i j).map fun w => (w.id, w.position)) outcome 0,
           (reorderAndAssign layout i j).map fun w => (w.id, w.position),
           false) :=
      persistLoop_no_throw _ outcome 0 store (by simpa using hok)
    simp only [handleDragEnd, hunfold]
  · intro n hok hthrow hn
    have hunfold :
        persistLoop ((reorderAndAssign layout i j).map fun w => (w.id, w.position))
            outcome 0 store =
          (applyOutcomes store
            (((reorderAndAssign layout i j).map fun w => (w.id, w.position)).take n)
            outcome 0,
           ((reorderAndAssign layout i j).map fun w => (w.id, w.position)).take (n + 1),
           true) :=
      persistLoop_first_throw _ outcome 0 n store (by simpa using hok)
        (by simpa using hthrow) hn
    simp only [handleDragEnd, hunfold]

theorem dragEnd_partial_failure_amended_witness :
    (∀ m, m < ((reorderAndAssign exLayout2 0 1).map fun w => (w.id, w.position)).length →
      exOutcomeN m ≠ CallOutcome.throws) ∧
    handleDragEnd exLayout2 ⟨0, some 1⟩ exOutcomeN exStore =
      ⟨reorderAndAssign exLayout2 0 1,
       applyOutcomes exStore
         ((reorderAndAssign exLayout2 0 1).map fun w => (w.id, w.position)) exOutcomeN 0,
       (reorderAndAssign exLayout2 0 1).map fun w => (w.id, w.position),
       false⟩ ∧
    (∀ m, m < 1 → exOutcomeW m ≠ CallOutcome.throws) ∧
    exOutcomeW 1 = CallOutcome.throws ∧
    1 < ((reorderAndAssign exLayout2 0 1).map fun w => (w.id, w.position)).length ∧
    handleDragEnd exLayout2 ⟨0, some 1⟩ exOutcomeW exStore =
      ⟨reorderAndAssign exLayout2 0 1,
       applyOutcomes exStore
         (((reorderAndAssign exLayout2 0 1).map fun w => (w.id, w.position)).take 1)
         exOutcomeW 0,
       ((reorderAndAssign exLayout2 0 1).map fun w => (w.id, w.position)).take 2,
       true⟩ :=
  ⟨by decide,
   (dragEnd_partial_failure_amended exLayout2 0 1 exOutcomeN exStore).2.1 (by decide),
   by decide, by decide, by decide,
   (dragEnd_partial_failure_amended exLayout2 0 1 exOutcomeW exStore).2.2 1
     (by decide) (by decide) (by decide)⟩

/-- C5: createDefaultLayout produces exactly one row per entry of
AVAILABLE_WIDGETS, with widget_type taken from the catalog entry, position
equal to the catalog index, is_active true and size medium; two runs with
different server-assigned ids yield the same widget-type sequence, equal to
the catalog order. -/
theorem createDefaultLayout_matches_catalog (uid : String)
    (ids1 ids2 : Nat → String) :
    (createDefaultWidgets uid).length = AVAILABLE_WIDGETS.length ∧
    (createDefaultWidgets uid).map
        (fun w => (w.widget_type, w.position, w.is_active, w.size)) =
      AVAILABLE_WIDGETS.mapIdx
        (fun index w => (w.id, index, true, WidgetSize.medium)) ∧
    (adoptInserted ids1 (createDefaultWidgets uid)).map (fun w => w.widget_type) =
      (adoptInserted ids2 (createDefaultWidgets uid)).map (fun w => w.widget_type) ∧
    (adoptInserted ids1 (createDefaultWidgets uid)).map (fun w => w.widget_type) =
      AVAILABLE_WIDGETS.map (fun w => w.id) :=
  ⟨rfl, rfl, rfl, rfl⟩

/-- C8: a failed list fetch leaves the initial empty list in place, while
the dashboard fetch instead falls back to default-layout creation. -/
theorem fetch_failure_degrades (msg : String) :
    fetchListNext ([] : List BucketListItem) (FetchResult.err msg) = [] ∧
    fetchDashboardNext (FetchResult.err msg) = LayoutAction.createDefault :=
  ⟨rfl, rfl⟩

def exItem : BucketListItem :=
  ⟨"item-1", "Fallschirmsprung", "Einmal springen", "Abenteuer", false, none,
   "2024-01-01"⟩

def exIdea : DatingIdea :=
  ⟨"idea-1", "Picknick", "Im Park", "Romantisch", "Unter 20€", "1-3h",
   "Draußen", false, "2024-01-01"⟩

/-- C2: refuted by the toggles: toggleComplete and toggleFavorite write only
the toggled boolean, with no user_id in the payload, while the handleSubmit
payloads (create and update alike) do carry user_id. -/
theorem toggle_payload_omits_user_id :
    (toggleComplete exItem).payload = [("is_completed", JsValue.bool true)] ∧
    "user_id" ∉ payloadKeys (toggleComplete exItem).payload ∧
    "user_id" ∉ payloadKeys (toggleFavorite exIdea).payload ∧
    (∀ fd uid item,
      "user_id" ∈ payloadKeys (bucketHandleSubmit fd uid item).payload) ∧
    (∀ fd uid idea,
      "user_id" ∈ payloadKeys (ideasHandleSubmit fd uid idea).payload) := by
  refine ⟨by decide, by decide, by decide, ?_, ?_⟩
  · intro fd uid item
    cases item <;> simp [bucketHandleSubmit, bucketItemData, payloadKeys, DbOp.payload]
  · intro fd uid idea
    cases idea <;> simp [ideasHandleSubmit, ideaData, payloadKeys, DbOp.payload]

def exEvent : Event :=
  ⟨"e1", "Jazz im Park", "Open Air", "Stadtpark", "2024-06-01", "Musik",
   some 0, true⟩

/-- C3 as stated is false: this event's distance_km is 0, hence at most 5,
and it passes the active search and category filters, yet the under5 bucket
drops it because 0 is falsy in the truthiness guard of matchesDistance. -/
theorem under5_drops_zero_distance :
    specDistanceAtMost5 exEvent = true ∧
    matchesSearch exEvent "" = true ∧
    matchesCategory exEvent "all" = true ∧
    filteredEvents [exEvent] "" "all" "under5" = [] := by
  decide

/-- C3 amended: the displayed set is a pure function of the filter values
and the fetched list and equals the subset satisfying all active predicates
conjunctively, where the under5 distance bucket selects the events whose
distance_km is present, non-zero and at most 5; the ideas list is filtered
by category alone. -/
theorem filteredEvents_conjunctive :
    (∀ (events : List Event) (s c d : String) (e : Event),
      e ∈ filteredEvents events s c d ↔
        e ∈ events ∧ matchesSearch e s = true ∧ matchesCategory e c = true ∧
          matchesDistance e d = true) ∧
    (∀ e : Event, matchesDistance e "under5" = true ↔
      ∃ k : Int, e.distance_km = some k ∧ k ≠ 0 ∧ k ≤ 5) ∧
    (∀ (ideas : List DatingIdea) (cat : String) (idea : DatingIdea),
      idea ∈ filteredIdeasFor ideas cat ↔
        idea ∈ ideas ∧ (cat = "all" ∨ idea.category = cat)) := by
  refine ⟨?_, ?_, ?_⟩
  · intro events s c d e
    simp [filteredEvents, List.mem_filter, and_assoc]
  · intro e
    cases hd : e.distance_km with
    | none => simp [matchesDistance, distTruthy, hd]
    | some k => simp [matchesDistance, distTruthy, distValue, hd, bne_iff_ne]
  · intro ideas cat idea
    by_cases hc : cat = "all"
    · simp [filteredIdeasFor, hc]
    · simp [filteredIdeasFor, hc, List.mem_filter]

/-- C10: getRandomIdea never indexes into an empty list: with an empty
filtered list it returns the early notification outcome and selects
nothing; with a non-empty filtered list the computed random index is in
bounds and the selected idea is an element of the filtered list. -/
theorem getRandomIdea_safe (ideas : List DatingIdea) (cat : String) (r : ℚ)
    (h0 : 0 ≤ r) (h1 : r < 1) :
    (filteredIdeasFor ideas cat = [] →
      getRandomIdea ideas cat r = RandomIdeaOutcome.noIdeas) ∧
    (filteredIdeasFor ideas cat ≠ [] →
      ∃ idea, getRandomIdea ideas cat r = RandomIdeaOutcome.selected (some idea) ∧
        idea ∈ filteredIdeasFor ideas cat) := by
  constructor
  · intro he
    simp [getRandomIdea, he]
  · intro hne
    have hlen : 0 < (filteredIdeasFor ideas cat).length := List.length_pos.mpr hne
    have hq : r * ((filteredIdeasFor ideas cat).length : ℚ) <
        ((filteredIdeasFor ideas cat).length : ℚ) := by
      have hpos : (0:ℚ) < ((filteredIdeasFor ideas cat).length : ℚ) := by
        exact_mod_cast hlen
      calc r * ((filteredIdeasFor ideas cat).length : ℚ)
          < 1 * ((filteredIdeasFor ideas cat).length : ℚ) :=
            mul_lt_mul_of_pos_right h1 hpos
        _ = ((filteredIdeasFor ideas cat).length : ℚ) := one_mul _
    have hfl : Int.floor (r * ((filteredIdeasFor ideas cat).length : ℚ)) <
        ((filteredIdeasFor ideas cat).length : ℤ) := by
      rw [Int.floor_lt]
      exact_mod_cast hq
    have hfl0 : 0 ≤ Int.floor (r * ((filteredIdeasFor ideas cat).length : ℚ)) := by
      apply Int.floor_nonneg.mpr
      apply mul_nonneg h0
      exact_mod_cast Nat.zero_le _
    have hidx : (Int.floor (r * ((filteredIdeasFor ideas cat).length : ℚ))).toNat <
        (filteredIdeasFor ideas cat).length := by omega
    refine ⟨(filteredIdeasFor ideas cat).get ⟨_, hidx⟩, ?_, ?_⟩
    · simp only [getRandomIdea]
      rw [if_neg (by omega)]
      rw [List.getElem?_eq_getElem hidx]
      rfl
    · exact List.get_mem _ _ _

def exIdeas : List DatingIdea :=
  [⟨"idea-2", "Kochen", "Zusammen kochen", "Kulinarisch", "20-50€", "1-3h",
    "Zuhause", false, "2024-02-01"⟩]

theorem getRandomIdea_safe_witness :
    ((0:ℚ) ≤ 1/2) ∧ ((1:ℚ)/2 < 1) ∧
      ((filteredIdeasFor exIdeas "all" = [] →
        getRandomIdea exIdeas "all" (1/2) = RandomIdeaOutcome.noIdeas) ∧
      (filteredIdeasFor exIdeas "all" ≠ [] →
        ∃ idea,
          getRandomIdea exIdeas "all" (1/2) = RandomIdeaOutcome.selected (some idea) ∧
            idea ∈ filteredIdeasFor exIdeas "all")) :=
  ⟨by norm_num, by norm_num,
   getRandomIdea_safe exIdeas "all" (1/2) (by norm_num) (by norm_num)⟩


